import Mathlib

/-!
Verification of the ai-chatbot repository's core logic: the multi-provider
completion dispatcher with fallback chaining (src/server/ai-service.ts),
the quick-questions content parser and typing-animation plain-text
projection (src/client/src/components/MessageItem.tsx), the per-conversation
animation state machine (ChatContent), and the role-normalization helper
(src/server/routes.ts).

Modelling conventions: provider SDK calls are abstracted as an oracle
(`Api`) mapping the exact outgoing request (model name plus the formatted
message list the source builds) to either a completion string or an error
message; JavaScript exceptions become `Except String`; the truthiness of
`process.env.*_API_KEY` becomes a `Bool` field of `Env`.  All message
formatting, routing, cascade and parsing logic is translated statement by
statement from the TypeScript source.
-/

/-- Message role, the closed set of src/server/ai-service.ts `AIMessage.role`. -/
inductive Role where
  | user
  | assistant
  | system
deriving DecidableEq, BEq, Repr

/-- The common message shape (`AIMessage` in src/server/ai-service.ts). -/
structure AIMessage where
  role : Role
  content : String
deriving DecidableEq, BEq, Repr

/-- One entry of the request body sent to the Google Gemini SDK: the source
pushes `{ role, parts: [{ text }] }` with a single part, modelled as a
role string plus that single text. -/
structure GeminiMessage where
  role : String
  text : String
deriving DecidableEq, BEq, Repr

/-- Which provider credential environment variables are configured
(truthiness of `process.env.*_API_KEY`). -/
structure Env where
  openaiKey : Bool
  googleKey : Bool
  mistralKey : Bool
deriving DecidableEq, Repr

/-- Oracle for the three provider SDKs: given the model name and the
formatted outgoing request, either a completion string or a thrown error's
message. -/
structure Api where
  openai : String → List AIMessage → Except String String
  mistral : String → List AIMessage → Except String String
  google : String → List GeminiMessage → Except String String

/-- The system instruction constant of `generateOpenAIChatCompletion`
(src/server/ai-service.ts lines 167-182), transcribed byte for byte from
the template literal. -/
def openaiSystemInstruction : String :=
  "You are a helpful AI assistant. After providing your answer, suggest 4 follow-up questions that might be relevant to continue the conversation. \n    \nFormat your response like this:\n1. Answer the user\x27s question normally and completely.\n2. At the end of your response, add:\n<QUICK_QUESTIONS>\nQuestion 1\nQuestion 2\nQuestion 3\nQuestion 4\n</QUICK_QUESTIONS>\n\nKeep the questions concise, focused, and diverse to explore different aspects of the topic. Make sure questions are relevant to the context of the conversation."

/-- The system instruction constant of `generateMistralChatCompletion`
(src/server/ai-service.ts lines 225-240); it differs from the OpenAI one
only in the indentation of the blank second line of the template literal. -/
def mistralSystemInstruction : String :=
  "You are a helpful AI assistant. After providing your answer, suggest 4 follow-up questions that might be relevant to continue the conversation. \n      \nFormat your response like this:\n1. Answer the user\x27s question normally and completely.\n2. At the end of your response, add:\n<QUICK_QUESTIONS>\nQuestion 1\nQuestion 2\nQuestion 3\nQuestion 4\n</QUICK_QUESTIONS>\n\nKeep the questions concise, focused, and diverse to explore different aspects of the topic. Make sure questions are relevant to the context of the conversation."

/-- `quickQuestionsInstructions` of `generateGoogleChatCompletion`
(src/server/ai-service.ts lines 304-318), transcribed byte for byte: the
template literal starts and ends with a newline. -/
def quickQuestionsInstructions : String :=
  "\nYou are a helpful AI assistant. After providing your answer, suggest 4 follow-up questions that might be relevant to continue the conversation.\n\nFormat your response like this:\n1. Answer the user\x27s question normally and completely.\n2. At the end of your response, add:\n<QUICK_QUESTIONS>\nQuestion 1\nQuestion 2\nQuestion 3\nQuestion 4\n</QUICK_QUESTIONS>\n\nKeep the questions concise, focused, and diverse to explore different aspects of the topic. Make sure questions are relevant to the context of the conversation.\n"

/-- Message formatting of `generateOpenAIChatCompletion` (lines 164-202):
if no system message is present, prepend the instruction as a new system
message; otherwise append the instruction to the content of each system
message (the source's `map` rewrites every system entry). -/
def openaiMessagesOf (messages : List AIMessage) : List AIMessage :=
  let hasSystemMessage := messages.any (fun msg => msg.role == Role.system)
  if !hasSystemMessage then
    { role := Role.system, content := openaiSystemInstruction } :: messages
  else
    messages.map (fun msg =>
      if msg.role == Role.system then
        { role := msg.role, content := msg.content ++ "\n\n" ++ openaiSystemInstruction }
      else msg)

/-- `generateOpenAIChatCompletion`: format the messages and call the OpenAI
SDK (abstracted by the oracle). -/
def generateOpenAIChatCompletion (api : Api) (messages : List AIMessage)
    (model : String) : Except String String :=
  api.openai model (openaiMessagesOf messages)

/-- Message formatting of `generateMistralChatCompletion` (lines 222-260),
identical in structure to the OpenAI one but with its own instruction
constant. -/
def mistralMessagesOf (messages : List AIMessage) : List AIMessage :=
  let hasSystemMessage := messages.any (fun msg => msg.role == Role.system)
  if !hasSystemMessage then
    { role := Role.system, content := mistralSystemInstruction } :: messages
  else
    messages.map (fun msg =>
      if msg.role == Role.system then
        { role := msg.role, content := msg.content ++ "\n\n" ++ mistralSystemInstruction }
      else msg)

/-- `generateMistralChatCompletion`: format the messages and call the
Mistral SDK; the source's `try`/`catch` rethrows unchanged, and the
empty-choices check and content-type handling live behind the oracle. -/
def generateMistralChatCompletion (api : Api) (messages : List AIMessage)
    (model : String) : Except String String :=
  api.mistral model (mistralMessagesOf messages)

/-- The message loop of `generateGoogleChatCompletion` (lines 322-346):
system messages are skipped and their content accumulated into
`systemPrompt`; other messages are pushed with role `model` for assistant
and `user` otherwise; the accumulated system prompt is folded into the
message only when it is the first pushed message and has role `user`,
after which the prompt is cleared. Returns the pushed list and the final
`systemPrompt` value. -/
def googleLoop : List AIMessage → List GeminiMessage → String →
    List GeminiMessage × String
  | [], acc, systemPrompt => (acc, systemPrompt)
  | msg :: rest, acc, systemPrompt =>
    if msg.role == Role.system then
      googleLoop rest acc (systemPrompt ++ msg.content ++ "\n\n")
    else
      let geminiRole := if msg.role == Role.assistant then "model" else "user"
      if geminiRole == "user" && systemPrompt != "" && acc.length == 0 then
        googleLoop rest (acc ++ [{ role := geminiRole, text := systemPrompt ++ msg.content }]) ""
      else
        googleLoop rest (acc ++ [{ role := geminiRole, text := msg.content }]) systemPrompt

/-- Outgoing request construction of `generateGoogleChatCompletion`
(lines 303-354): run the loop starting from the quick-questions
instruction plus a blank line, and if nothing was pushed while a system
prompt remains, send it as a lone user message. -/
def googleMessagesOf (messages : List AIMessage) : List GeminiMessage :=
  let result := googleLoop messages [] (quickQuestionsInstructions ++ "\n\n")
  if result.1.length == 0 && result.2 != "" then
    [{ role := "user", text := result.2 }]
  else
    result.1

/-- `generateGoogleChatCompletion`: format the messages and call the Gemini
SDK (abstracted); its `try`/`catch` rethrows unchanged. -/
def generateGoogleChatCompletion (api : Api) (messages : List AIMessage)
    (model : String) : Except String String :=
  api.google model (googleMessagesOf messages)

/-- Split a character list on a single separator character, with the
semantics of JavaScript `String.prototype.split` for a one-character
separator (used for `model.split(':')` and `text.split('\n')`). -/
def splitOnChar (sep : Char) : List Char → List (List Char)
  | [] => [[]]
  | c :: cs =>
    if c == sep then
      [] :: splitOnChar sep cs
    else
      match splitOnChar sep cs with
      | [] => [[c]]
      | g :: gs => (c :: g) :: gs

/-- Selector parsing of `generateChatCompletion` (lines 29-37): provider
defaults to `openai` with the whole string as model name; if the selector
contains a colon, provider is `parts[0]` and model name `parts[1]`. -/
def parseModelSelector (model : String) : String × String :=
  if model.data.contains ':' then
    let parts := (splitOnChar ':' model.data).map String.mk
    (parts.headD "", (parts.drop 1).headD "")
  else
    ("openai", model)

/-- The `switch (provider)` of `generateChatCompletion` (lines 40-49): route
to the matching provider implementation, or throw `Unsupported AI
provider` for an unknown provider. -/
def routedPrimary (api : Api) (messages : List AIMessage) (model : String) :
    Except String String :=
  let provider := (parseModelSelector model).1
  let modelName := (parseModelSelector model).2
  if provider == "openai" then
    generateOpenAIChatCompletion api messages modelName
  else if provider == "google" then
    generateGoogleChatCompletion api messages modelName
  else if provider == "mistral" then
    generateMistralChatCompletion api messages modelName
  else
    .error ("Unsupported AI provider: " ++ provider)

/-- `generateChatCompletion` (lines 25-87): try the routed provider; on any
error run the fixed fallback sequence Mistral, OpenAI, Google — each only
when its key is configured and it was not the original provider, each with
its fixed fallback model, each failure swallowed — and if nothing
succeeded, throw `Failed to generate AI response` carrying the original
error's message (`Unknown error` when that message is empty). -/
def generateChatCompletion (env : Env) (api : Api) (messages : List AIMessage)
    (model : String) : Except String String :=
  let provider := (parseModelSelector model).1
  match routedPrimary api messages model with
  | .ok r => .ok r
  | .error e =>
    let mistralStep : Option String :=
      if env.mistralKey && provider != "mistral" then
        match generateMistralChatCompletion api messages "mistral-large-2" with
        | .ok r => some r
        | .error _ => none
      else none
    match mistralStep with
    | some r => .ok r
    | none =>
      let openaiStep : Option String :=
        if env.openaiKey && provider != "openai" then
          match generateOpenAIChatCompletion api messages "gpt-3.5-turbo" with
          | .ok r => some r
          | .error _ => none
        else none
      match openaiStep with
      | some r => .ok r
      | none =>
        let googleStep : Option String :=
          if env.googleKey && provider != "google" then
            match generateGoogleChatCompletion api messages "gemini-2.0-flash" with
            | .ok r => some r
            | .error _ => none
          else none
        match googleStep with
        | some r => .ok r
        | none =>
          let errorMessage := if e == "" then "Unknown error" else e
          .error ("Failed to generate AI response: " ++ errorMessage)

/-! ### Spec-side cascade model

The fallback cascade as the specification words it (section 4.1): a fixed
priority list `mistral`, `openai`, `google`, each eligible only when its
credential is configured and it was not the original provider, each tried
with a fixed fallback model identifier, failures swallowed, and a single
`CompletionUnavailable`-style error carrying the original error's message
once the list is exhausted.  Claim C1 compares `generateChatCompletion`
against this model. -/

/-- The closed provider set of the specification. -/
inductive Provider where
  | mistral
  | openai
  | google
deriving DecidableEq, Repr

/-- The provider's selector-string name. -/
def providerName : Provider → String
  | .mistral => "mistral"
  | .openai => "openai"
  | .google => "google"

/-- The fixed fallback model identifier of each provider. -/
def fallbackModelId : Provider → String
  | .mistral => "mistral-large-2"
  | .openai => "gpt-3.5-turbo"
  | .google => "gemini-2.0-flash"

/-- Whether the provider's credential environment variable is configured. -/
def credentialConfigured (env : Env) : Provider → Bool
  | .mistral => env.mistralKey
  | .openai => env.openaiKey
  | .google => env.googleKey

/-- Dispatch one attempt to the given provider's implementation. -/
def attemptProvider (api : Api) (p : Provider) (messages : List AIMessage)
    (model : String) : Except String String :=
  match p with
  | .mistral => generateMistralChatCompletion api messages model
  | .openai => generateOpenAIChatCompletion api messages model
  | .google => generateGoogleChatCompletion api messages model

/-- The fixed fallback priority order of the specification. -/
def fallbackOrder : List Provider := [.mistral, .openai, .google]

/-- The terminal error of the cascade: a single error message carrying the
original error's message (`Unknown error` standing in for an empty one). -/
def completionUnavailable (origErr : String) : String :=
  "Failed to generate AI response: " ++ (if origErr == "" then "Unknown error" else origErr)

/-- Spec-side cascade: walk the priority list, attempt each eligible
provider with its fixed fallback model, swallow failures, and fail with
`completionUnavailable` when the list is exhausted. -/
def fallbackCascade (env : Env) (api : Api) (messages : List AIMessage)
    (origProvider : String) (origErr : String) :
    List Provider → Except String String
  | [] => .error (completionUnavailable origErr)
  | p :: ps =>
    if credentialConfigured env p && origProvider != providerName p then
      match attemptProvider api p messages (fallbackModelId p) with
      | .ok r => .ok r
      | .error _ => fallbackCascade env api messages origProvider origErr ps
    else
      fallbackCascade env api messages origProvider origErr ps

/-! ### Title generation (src/server/ai-service.ts lines 92-155) -/

/-- The title prompt string used by `generateConversationTitle` (the same
sentence appears in all of its branches). -/
def titlePrompt : String :=
  "Generate a short, descriptive title (max 6 words) for a conversation that starts with the following message. Respond with ONLY the title, no quotes or additional text."

/-- The `try` body of `generateConversationTitle` (lines 96-133): route on
the parsed provider — OpenAI and Google get dedicated request shapes, and
every other provider falls through to OpenAI with model `gpt-3.5-turbo`. -/
def titleTryBody (api : Api) (firstUserMessage : String) (model : String) :
    Except String String :=
  let provider := (parseModelSelector model).1
  let modelName := (parseModelSelector model).2
  if provider == "openai" then
    generateOpenAIChatCompletion api
      [{ role := Role.system, content := titlePrompt },
       { role := Role.user, content := firstUserMessage }] modelName
  else if provider == "google" then
    generateGoogleChatCompletion api
      [{ role := Role.user, content := titlePrompt ++ "\n\n" ++ firstUserMessage }] modelName
  else
    generateOpenAIChatCompletion api
      [{ role := Role.system, content := titlePrompt },
       { role := Role.user, content := firstUserMessage }] "gpt-3.5-turbo"

/-- `generateConversationTitle` (lines 92-155): run the try body; on
failure make one best-effort Google fallback when that key is configured
(its own failure swallowed by the inner catch), and otherwise return the
sentinel `New Conversation`.  Total by construction: it never throws. -/
def generateConversationTitle (env : Env) (api : Api)
    (firstUserMessage : String) (model : String) : String :=
  match titleTryBody api firstUserMessage model with
  | .ok t => t
  | .error _ =>
    if env.googleKey then
      match generateGoogleChatCompletion api
          [{ role := Role.user, content := titlePrompt ++ "\n\n" ++ firstUserMessage }]
          "gemini-2.0-flash" with
      | .ok t => t
      | .error _ => "New Conversation"
    else
      "New Conversation"

/-! ### Character-list string helpers

JavaScript string operations used by the client (regex first-match,
global literal replacement, `trim`, `split('\n')`) are modelled over
`List Char` so that every definition evaluates inside the kernel. -/

/-- Boolean prefix test on character lists. -/
def startsWithChars : List Char → List Char → Bool
  | [], _ => true
  | _ :: _, [] => false
  | p :: ps, c :: cs => p == c && startsWithChars ps cs

/-- Locate the first occurrence of a (nonempty) pattern: returns the text
before it and the text after it, or `none` when the pattern does not
occur.  This is the semantics of a JavaScript regex literal search. -/
def breakOnAux (pat : List Char) : Nat → List Char → Option (List Char × List Char)
  | 0, s => if startsWithChars pat s then some ([], s.drop pat.length) else none
  | fuel + 1, s =>
    if startsWithChars pat s then
      some ([], s.drop pat.length)
    else
      match s with
      | [] => none
      | c :: cs =>
        match breakOnAux pat fuel cs with
        | some pr => some (c :: pr.1, pr.2)
        | none => none

/-- Entry point of `breakOnAux` with enough fuel. -/
def breakOn (pat s : List Char) : Option (List Char × List Char) :=
  breakOnAux pat s.length s

/-- Replace every non-overlapping occurrence of a (nonempty) literal
pattern, left to right — JavaScript `replace(/pat/g, repl)` for a literal
pattern. -/
def replaceAllChars (pat repl : List Char) : Nat → List Char → List Char
  | 0, s => s
  | fuel + 1, s =>
    if startsWithChars pat s then
      repl ++ replaceAllChars pat repl fuel (s.drop pat.length)
    else
      match s with
      | [] => []
      | c :: cs => c :: replaceAllChars pat repl fuel cs

/-- The JavaScript whitespace class (`\s` and the ends trimmed by
`String.prototype.trim`), restricted to its common members. -/
def jsWhitespaceChar (c : Char) : Bool :=
  c == ' ' || c == '\t' || c == '\n' || c == '\r' || c == '\x0b' || c == '\x0c' || c == '\xa0'

/-- JavaScript `String.prototype.trim` on a character list. -/
def jsTrim (s : List Char) : List Char :=
  (((s.dropWhile jsWhitespaceChar).reverse).dropWhile jsWhitespaceChar).reverse

/-! ### Quick-questions extraction (src/client/src/components/MessageItem.tsx lines 36-56) -/

/-- The literal opening delimiter of the quick-questions block. -/
def qqOpenTag : String := "<QUICK_QUESTIONS>"

/-- The literal closing delimiter of the quick-questions block. -/
def qqCloseTag : String := "</QUICK_QUESTIONS>"

/-- First match of the regex
`<QUICK_QUESTIONS>([\s\S]*?)<\/QUICK_QUESTIONS>` against the content:
the first opening tag, the lazily-matched inner text up to the first
closing tag after it, and the remainder.  Returns
`(before, inner, after)` or `none` when there is no match. -/
def qqFirstMatch (content : String) : Option (String × String × String) :=
  match breakOn qqOpenTag.data content.data with
  | none => none
  | some pr =>
    match breakOn qqCloseTag.data pr.2 with
    | none => none
    | some pr2 => some (String.mk pr.1, String.mk pr2.1, String.mk pr2.2)

/-- The content-processing effect of `MessageItem` for an assistant message
(lines 36-56): on a match with nonempty captured group, the question list
is the inner text's lines, trimmed, with empty lines dropped, and the
display text is the content with the matched block removed and the result
trimmed; otherwise the questions are empty and the display text is the
content unchanged.  Returns `(questions, cleanContent)`. -/
def parseAssistantContent (content : String) : List String × String :=
  match qqFirstMatch content with
  | some (pre, inner, post) =>
    if inner != "" then
      let questionsText := String.mk (jsTrim inner.data)
      let questions := ((splitOnChar '\n' questionsText.data).map
        (fun l => String.mk (jsTrim l))).filter (fun q => decide (q.data.length > 0))
      (questions, String.mk (jsTrim (pre.data ++ post.data)))
    else
      ([], content)
  | none => ([], content)

/-- Modelled from the spec: the parser exactly as claim C2 words it — when
the block is present (even with empty inner text) the question list is the
inner lines trimmed with blank lines dropped, and the display text is the
content with the entire block including delimiters removed, with no
further trimming; when absent, empty questions and the content unchanged. -/
def parseAssistantContentClaimed (content : String) : List String × String :=
  match qqFirstMatch content with
  | some (pre, inner, post) =>
    (((splitOnChar '\n' (jsTrim inner.data)).map
        (fun l => String.mk (jsTrim l))).filter (fun q => decide (q.data.length > 0)),
     pre ++ post)
  | none => ([], content)

/-! ### Typing-animation plain-text projection (MessageItem.tsx lines 84-92) -/

/-- Collapse of `/```[\s\S]*?```/g` to `(code block)`: repeatedly pair the
first two remaining occurrences of three backticks and replace the pair
and the lazily-matched inner text by the placeholder; an unpaired final
fence is left alone. -/
def replaceFencedAux (fence placeholder : List Char) : Nat → List Char → List Char
  | 0, s => s
  | fuel + 1, s =>
    match breakOn fence s with
    | none => s
    | some pr =>
      match breakOn fence pr.2 with
      | none => s
      | some pr2 => pr.1 ++ placeholder ++ replaceFencedAux fence placeholder fuel pr2.2

/-- Try to parse a markdown link `[text](url)` at the current position:
after `[`, the text is everything up to the first `]` (nonempty), then a
literal `(`, then a nonempty url up to the first `)` — exactly the regex
`\[([^\]]+)\]\([^)]+\)`.  Returns the link text and the rest after `)`. -/
def tryParseLink (s : List Char) : Option (List Char × List Char) :=
  match s with
  | '[' :: rest =>
    match breakOn [']'] rest with
    | none => none
    | some pr =>
      if pr.1.isEmpty then none
      else
        match pr.2 with
        | '(' :: rest2 =>
          match breakOn [')'] rest2 with
          | none => none
          | some pr2 => if pr2.1.isEmpty then none else some (pr.1, pr2.2)
        | _ => none
  | _ => none

/-- Global replacement of `/\[([^\]]+)\]\([^)]+\)/g` by the captured link
text: scan left to right, replacing each match and resuming after it. -/
def replaceLinksAux : Nat → List Char → List Char
  | 0, s => s
  | fuel + 1, s =>
    match s with
    | [] => []
    | c :: cs =>
      if c == '[' then
        match tryParseLink (c :: cs) with
        | some pr => pr.1 ++ replaceLinksAux fuel pr.2
        | none => c :: replaceLinksAux fuel cs
      else
        c :: replaceLinksAux fuel cs

/-- Length of the leading run of `#` characters. -/
def countHashes : List Char → Nat
  | '#' :: cs => 1 + countHashes cs
  | _ => 0

/-- Global removal of `/#{1,6}\s/g`: at each position, a run of one to six
`#` followed by a whitespace character is deleted (run and whitespace);
longer runs fail at that position and scanning advances one character. -/
def stripHeadingsAux : Nat → List Char → List Char
  | 0, s => s
  | fuel + 1, s =>
    match s with
    | [] => []
    | c :: cs =>
      if c == '#' then
        let run := countHashes (c :: cs)
        if run ≤ 6 then
          match (c :: cs).drop run with
          | w :: _ =>
            if jsWhitespaceChar w then
              stripHeadingsAux fuel ((c :: cs).drop (run + 1))
            else
              c :: stripHeadingsAux fuel cs
          | [] => c :: stripHeadingsAux fuel cs
        else
          c :: stripHeadingsAux fuel cs
      else
        c :: stripHeadingsAux fuel cs

/-- The plain-text projection of `MessageItem` (lines 86-91), with the
source's exact replacement order: strip `**`, then `*`, then every
backtick, then collapse fenced code blocks to `(code block)`, then reduce
links to their text, then remove heading markers. -/
def plainTextOf (fullContent : String) : String :=
  let step1 := replaceAllChars "**".data [] fullContent.data.length fullContent.data
  let step2 := replaceAllChars "*".data [] step1.length step1
  let step3 := replaceAllChars "`".data [] step2.length step2
  let step4 := replaceFencedAux "```".data "(code block)".data step3.length step3
  let step5 := replaceLinksAux step4.length step4
  String.mk (stripHeadingsAux step5.length step5)

/-! ### Animation state machine (src/unnamed/part_002, `ChatContent`) -/

/-- A message as the client sees it: numeric id, raw role string, content. -/
structure ClientMessage where
  id : Nat
  role : String
  content : String
deriving DecidableEq, Repr

/-- The in-memory animation state of a mounted `ChatContent`:
`animatedMessageId` (the `useState`, initially `null`), the previously
observed message list (`prevMessagesRef`, initially `[]`), and the
previously observed conversation identity (`conversationIdRef`, initially
`null`). -/
structure AnimState where
  animatedMessageId : Option Nat
  prevMessages : List ClientMessage
  currentConversationId : Option Int
deriving DecidableEq, Repr

/-- The switch-detection effect (part_002 lines 42-49): when the active
conversation identity differs from the observed one, clear the animated
id, reset the observed list and record the new identity. -/
def switchEffect (conversationId : Int) (s : AnimState) : AnimState :=
  if some conversationId ≠ s.currentConversationId then
    { animatedMessageId := none, prevMessages := [],
      currentConversationId := some conversationId }
  else s

/-- The message-tracking effect (part_002 lines 52-77): on first observation
of a nonempty list record it without animating; on growth, inspect the
newly appended slice, animate the last appended assistant message when one
exists, and record the new list; otherwise do nothing. -/
def messagesEffect (messages : List ClientMessage) (s : AnimState) : AnimState :=
  if s.prevMessages.length == 0 && decide (messages.length > 0) then
    { s with prevMessages := messages }
  else if decide (messages.length > s.prevMessages.length) then
    let newMessages := messages.drop s.prevMessages.length
    let newAiMessages := newMessages.filter (fun m => m.role == "assistant")
    let animated :=
      match newAiMessages.getLast? with
      | some m => some m.id
      | none => s.animatedMessageId
    { animatedMessageId := animated, prevMessages := messages,
      currentConversationId := s.currentConversationId }
  else s

/-- One render observation of `ChatContent`: the switch-detection effect
runs before the message-tracking effect (their declaration order). -/
def observeRender (conversationId : Int) (messages : List ClientMessage)
    (s : AnimState) : AnimState :=
  messagesEffect messages (switchEffect conversationId s)

/-- `handleTypingComplete` (part_002 lines 80-85): clear the animated id
only when the completing message is still the animated one. -/
def handleTypingComplete (messageId : Nat) (s : AnimState) : AnimState :=
  if s.animatedMessageId == some messageId then
    { s with animatedMessageId := none }
  else s

/-- The `isNew` render flag passed to `MessageItem` (part_002 line 208). -/
def isNewFlag (s : AnimState) (m : ClientMessage) : Bool :=
  m.role == "assistant" && some m.id == s.animatedMessageId

/-! ### Role normalization (src/server/routes.ts lines 297-310 and MessageItem.tsx line 23) -/

/-- The server's role-normalization step before dispatching history: the
nested conditional of routes.ts lines 299-304, defaulting unknown roles to
`user`. -/
def normalizeRole (role : String) : Role :=
  if role == "user" then Role.user
  else if role == "assistant" then Role.assistant
  else if role == "system" then Role.system
  else Role.user

/-- The client's `isUser` classification before rendering
(MessageItem.tsx line 23): the bare comparison with `"user"`. -/
def clientIsUser (role : String) : Bool :=
  role == "user"

/-- The per-message conversion applied by the Google loop to a non-system
message that is not the fold target: assistant becomes the `model` role
label, everything else `user`, content unchanged. -/
def geminiOf (m : AIMessage) : GeminiMessage :=
  { role := if m.role == Role.assistant then "model" else "user", text := m.content }

/-- Concatenation of the contents of a run of system messages, each
followed by a blank line — the shape in which the Google loop accumulates
skipped system messages into its pending system prompt. -/
def joinedSystemContents : List AIMessage → String
  | [] => ""
  | m :: rest => m.content ++ "\n\n" ++ joinedSystemContents rest

/-! ## Claim theorems -/

/-- C5: for every prior animation state, whenever the active conversation
identity differs from the previously observed one, the switch-detection
effect clears `animatedMessageId` and resets the observed message list to
empty before the message-tracking effect runs, and after the full render
observation `animatedMessageId` is `null` regardless of prior state. -/
theorem animation_cleared_on_switch (s : AnimState) (conversationId : Int)
    (messages : List ClientMessage)
    (h : s.currentConversationId ≠ some conversationId) :
    switchEffect conversationId s =
      { animatedMessageId := none, prevMessages := [],
        currentConversationId := some conversationId } ∧
    (observeRender conversationId messages s).animatedMessageId = none := by
  have hsw : switchEffect conversationId s =
      { animatedMessageId := none, prevMessages := [],
        currentConversationId := some conversationId } := by
    unfold switchEffect
    rw [if_pos (Ne.symm h)]
  refine ⟨hsw, ?_⟩
  unfold observeRender
  rw [hsw]
  cases messages with
  | nil => rfl
  | cons m ms => simp [messagesEffect]

/-- Witness for C5: with message 5 animating in conversation 1, observing
conversation 2 leaves no animating message. -/
theorem animation_cleared_on_switch_witness :
    (observeRender 2 [{ id := 7, role := "assistant", content := "x" }]
      { animatedMessageId := some 5,
        prevMessages := [{ id := 1, role := "user", content := "u" }],
        currentConversationId := some 1 }).animatedMessageId = none :=
  (animation_cleared_on_switch
    { animatedMessageId := some 5,
      prevMessages := [{ id := 1, role := "user", content := "u" }],
      currentConversationId := some 1 }
    2 [{ id := 7, role := "assistant", content := "x" }] (by decide)).2

/-- C4: for a mounted conversation (no identity switch) whose message list
grows from a previously observed nonempty list, only the newly appended
slice is inspected: when it contains assistant messages the animated id
becomes the last appended assistant message's id, when it contains none
the animated id is left unchanged, and the observed list becomes the new
list. -/
theorem animation_growth_rule (s : AnimState) (conversationId : Int)
    (messages : List ClientMessage)
    (hconv : s.currentConversationId = some conversationId)
    (hne : s.prevMessages ≠ [])
    (hgrow : s.prevMessages.length < messages.length) :
    (observeRender conversationId messages s).animatedMessageId =
      (match ((messages.drop s.prevMessages.length).filter
          (fun m => m.role == "assistant")).getLast? with
       | some m => some m.id
       | none => s.animatedMessageId) ∧
    (observeRender conversationId messages s).prevMessages = messages := by
  have hsw : switchEffect conversationId s = s := by
    unfold switchEffect
    rw [if_neg]
    simp [hconv]
  unfold observeRender
  rw [hsw]
  unfold messagesEffect
  have h0 : (s.prevMessages.length == 0) = false := by
    simp [hne]
  rw [h0]
  simp only [Bool.false_and, Bool.false_eq_true, if_false]
  rw [if_pos (decide_eq_true hgrow)]
  exact ⟨rfl, rfl⟩

/-- Witness for C4 (Scenario B of the specification): appending one
assistant message with id 3 to a conversation with 2 observed messages
sets the animated id to 3, and appending a user message instead leaves it
unset. -/
theorem animation_growth_rule_witness :
    (observeRender 1
      [{ id := 1, role := "user", content := "a" },
       { id := 2, role := "assistant", content := "b" },
       { id := 3, role := "assistant", content := "c" }]
      { animatedMessageId := none,
        prevMessages :=
          [{ id := 1, role := "user", content := "a" },
           { id := 2, role := "assistant", content := "b" }],
        currentConversationId := some 1 }).animatedMessageId = some 3 := by
  have h := animation_growth_rule
    { animatedMessageId := none,
      prevMessages :=
        [{ id := 1, role := "user", content := "a" },
         { id := 2, role := "assistant", content := "b" }],
      currentConversationId := some 1 }
    1
    [{ id := 1, role := "user", content := "a" },
     { id := 2, role := "assistant", content := "b" },
     { id := 3, role := "assistant", content := "c" }]
    (by decide) (by decide) (by decide)
  exact h.1.trans (by decide)

/-- C9 counterexample: the role `weird` normalizes to `user` on the server,
yet the client's pre-render classification does not treat it as a user
message — so the rendering step does not apply the same normalization,
contradicting the claim at the concrete role string `weird`. -/
theorem roleNormalization_rendering_counterexample :
    normalizeRole "weird" = Role.user ∧
    clientIsUser "weird" = false ∧
    clientIsUser "weird" ≠ decide (normalizeRole "weird" = Role.user) := by
  refine ⟨rfl, rfl, ?_⟩
  decide

/-- C9 amended: the server-side normalization maps the three known role
strings to themselves and every other role string to `user`; the client's
pre-render classification is only the bare comparison with `user`, which
agrees with classifying by the normalized role on the three known role
strings (but, per the counterexample, not on unknown ones). -/
theorem roleNormalization_behavior :
    (normalizeRole "user" = Role.user ∧ normalizeRole "assistant" = Role.assistant ∧
      normalizeRole "system" = Role.system) ∧
    (∀ role, role ≠ "user" → role ≠ "assistant" → role ≠ "system" →
      normalizeRole role = Role.user) ∧
    (∀ role, role = "user" ∨ role = "assistant" ∨ role = "system" →
      clientIsUser role = decide (normalizeRole role = Role.user)) := by
  refine ⟨⟨rfl, rfl, rfl⟩, ?_, ?_⟩
  · intro role h1 h2 h3
    unfold normalizeRole
    rw [if_neg, if_neg, if_neg]
    · simp [h3]
    · simp [h2]
    · simp [h1]
  · rintro role (rfl | rfl | rfl) <;> rfl

/-- Witness for C9 amended: the unrecognized role `weird` normalizes to
`user`, and on the known role `assistant` the client classification agrees
with the normalized role. -/
theorem roleNormalization_behavior_witness :
    normalizeRole "weird" = Role.user ∧
    clientIsUser "assistant" = decide (normalizeRole "assistant" = Role.user) :=
  ⟨roleNormalization_behavior.2.1 "weird" (by decide) (by decide) (by decide),
   roleNormalization_behavior.2.2 "assistant" (Or.inr (Or.inl rfl))⟩

/-- C7: evaluation of the plain-text projection at a fenced code block.
The source removes every backtick before the fenced-block replacement
runs, so `/```[\s\S]*?```/g` never matches and the block is revealed as
its raw text instead of the `(code block)` placeholder the replacement
(and the claim) intend. -/
theorem plainText_fenced_block_not_collapsed :
    plainTextOf "```\ncode\n```" = "\ncode\n" ∧
    ("\ncode\n" : String) ≠ "(code block)" := by
  constructor
  · decide
  · decide

set_option maxRecDepth 8192 in
/-- C8 counterexample: a history with two system messages.  The source's
`map` appends the quick-questions instruction to the content of both
system messages, so the later system message does not pass through
unchanged, contradicting the claim that the instruction is appended to
the (one) system message while all other messages pass through with role
and content unchanged. -/
theorem systemMessage_augmentation_counterexample :
    openaiMessagesOf
        [{ role := Role.system, content := "s1" },
         { role := Role.user, content := "u" },
         { role := Role.system, content := "s2" }] =
      [{ role := Role.system, content := "s1" ++ "\n\n" ++ openaiSystemInstruction },
       { role := Role.user, content := "u" },
       { role := Role.system, content := "s2" ++ "\n\n" ++ openaiSystemInstruction }] ∧
    ("s2" ++ "\n\n" ++ openaiSystemInstruction : String) ≠ "s2" := by
  constructor
  · decide
  · decide

/-- C8 amended: for the two system-role-capable providers, when the
history has no system message the outgoing request is the history with a
new system message carrying the provider's instruction prepended, and
when it has one or more system messages the outgoing request appends the
instruction to the content of every system message while every other
message passes through unchanged. -/
theorem systemMessage_augmentation (api : Api) (messages : List AIMessage)
    (model : String) :
    (messages.any (fun msg => msg.role == Role.system) = false →
      generateOpenAIChatCompletion api messages model =
        api.openai model
          ({ role := Role.system, content := openaiSystemInstruction } :: messages) ∧
      generateMistralChatCompletion api messages model =
        api.mistral model
          ({ role := Role.system, content := mistralSystemInstruction } :: messages)) ∧
    (messages.any (fun msg => msg.role == Role.system) = true →
      generateOpenAIChatCompletion api messages model =
        api.openai model (messages.map (fun msg =>
          if msg.role == Role.system then
            { role := msg.role, content := msg.content ++ "\n\n" ++ openaiSystemInstruction }
          else msg)) ∧
      generateMistralChatCompletion api messages model =
        api.mistral model (messages.map (fun msg =>
          if msg.role == Role.system then
            { role := msg.role, content := msg.content ++ "\n\n" ++ mistralSystemInstruction }
          else msg))) := by
  constructor <;> intro h <;>
    exact ⟨by unfold generateOpenAIChatCompletion openaiMessagesOf; rw [h]; rfl,
           by unfold generateMistralChatCompletion mistralMessagesOf; rw [h]; rfl⟩

/-- Witness for C8 amended: a one-user-message history gets the new system
message prepended for the OpenAI-bound request. -/
theorem systemMessage_augmentation_witness :
    generateOpenAIChatCompletion
        ⟨fun _ ms => .ok (toString ms.length), fun _ _ => .error "m", fun _ _ => .error "g"⟩
        [{ role := Role.user, content := "hello" }] "gpt-4o" =
      (⟨fun _ ms => .ok (toString ms.length), fun _ _ => .error "m", fun _ _ => .error "g"⟩ : Api).openai
        "gpt-4o"
        ({ role := Role.system, content := openaiSystemInstruction } ::
          [{ role := Role.user, content := "hello" }]) :=
  ((systemMessage_augmentation
      ⟨fun _ ms => .ok (toString ms.length), fun _ _ => .error "m", fun _ _ => .error "g"⟩
      [{ role := Role.user, content := "hello" }] "gpt-4o").1 (by decide)).1

/-- C2 counterexample: two divergences from the claim's description of the
parser.  First, the code trims the display text after removing the block:
on a content whose prefix ends in a newline the claim predicts display
text with the trailing newline kept, the code drops it.  Second, when the
block is present with empty inner text, the captured group is falsy, so
the code leaves the content entirely unchanged (block not removed) and
reports no questions, while the claim predicts the block's removal. -/
theorem parseAssistantContent_claim_counterexample :
    parseAssistantContent "Hi!\n<QUICK_QUESTIONS>\nQ1\n</QUICK_QUESTIONS>" =
      (["Q1"], "Hi!") ∧
    parseAssistantContentClaimed "Hi!\n<QUICK_QUESTIONS>\nQ1\n</QUICK_QUESTIONS>" =
      (["Q1"], "Hi!\n") ∧
    ("Hi!" : String) ≠ "Hi!\n" ∧
    parseAssistantContent "Hi <QUICK_QUESTIONS></QUICK_QUESTIONS>" =
      ([], "Hi <QUICK_QUESTIONS></QUICK_QUESTIONS>") ∧
    parseAssistantContentClaimed "Hi <QUICK_QUESTIONS></QUICK_QUESTIONS>" =
      ([], "Hi ") ∧
    ("Hi <QUICK_QUESTIONS></QUICK_QUESTIONS>" : String) ≠ "Hi " := by
  refine ⟨by decide, by decide, by decide, by decide, by decide, by decide⟩

/-- C2 amended: when the first quick-questions block match has nonempty
inner text, the question list is the inner lines trimmed with blank lines
dropped, and the display text is the content with the matched block
removed and the remainder trimmed of leading and trailing whitespace;
when there is no match, or the inner text is empty, the questions are
empty and the display text is the original content unchanged.  The
claim's concrete Scenario A instance holds as stated. -/
theorem parseAssistantContent_extraction :
    (∀ content pre inner post,
      qqFirstMatch content = some (pre, inner, post) → inner ≠ "" →
      parseAssistantContent content =
        (((splitOnChar '\n' (jsTrim inner.data)).map
            (fun l => String.mk (jsTrim l))).filter (fun q => decide (q.data.length > 0)),
         String.mk (jsTrim (pre.data ++ post.data)))) ∧
    (∀ content, qqFirstMatch content = none →
      parseAssistantContent content = ([], content)) ∧
    (∀ content pre post, qqFirstMatch content = some (pre, "", post) →
      parseAssistantContent content = ([], content)) ∧
    parseAssistantContent
        "Hi there!\n<QUICK_QUESTIONS>\nHow are you?\nWhat\x27s new?\nTell me more\nAnything else?\n</QUICK_QUESTIONS>" =
      (["How are you?", "What\x27s new?", "Tell me more", "Anything else?"], "Hi there!") := by
  refine ⟨?_, ?_, ?_, by decide⟩
  · intro content pre inner post hm hne
    unfold parseAssistantContent
    rw [hm]
    dsimp only
    rw [bne_iff_ne.mpr hne]
    rfl
  · intro content hm
    unfold parseAssistantContent
    rw [hm]
  · intro content pre post hm
    unfold parseAssistantContent
    rw [hm]
    rfl

/-- Witness for C2 amended: a content with no quick-questions block parses
to no questions and the unchanged content. -/
theorem parseAssistantContent_extraction_witness :
    parseAssistantContent "Just an answer." = ([], "Just an answer.") :=
  parseAssistantContent_extraction.2.1 "Just an answer." (by decide)

/-- C6: `generateConversationTitle` is total (it returns a `String`, never
an error).  When its primary attempt succeeds the result is that title;
when it fails, exactly one best-effort fallback to the system-role-less
Google provider with model `gemini-2.0-flash` is made if the Google key is
configured — its own failure swallowed — and in every remaining case the
literal sentinel `New Conversation` is returned. -/
theorem generateConversationTitle_never_fails (env : Env) (api : Api)
    (firstUserMessage : String) (model : String) :
    (∀ t, titleTryBody api firstUserMessage model = .ok t →
      generateConversationTitle env api firstUserMessage model = t) ∧
    (∀ e, titleTryBody api firstUserMessage model = .error e →
      (env.googleKey = false →
        generateConversationTitle env api firstUserMessage model = "New Conversation") ∧
      (env.googleKey = true →
        generateConversationTitle env api firstUserMessage model =
          (match generateGoogleChatCompletion api
              [{ role := Role.user, content := titlePrompt ++ "\n\n" ++ firstUserMessage }]
              "gemini-2.0-flash" with
           | .ok t => t
           | .error _ => "New Conversation"))) := by
  constructor
  · intro t ht
    unfold generateConversationTitle
    rw [ht]
  · intro e he
    constructor <;> intro hk <;> unfold generateConversationTitle <;> rw [he, hk] <;> rfl

/-- Witness for C6: with no Google key and every provider failing, title
generation returns the sentinel rather than failing. -/
theorem generateConversationTitle_never_fails_witness :
    generateConversationTitle ⟨true, false, true⟩
      ⟨fun _ _ => .error "down", fun _ _ => .error "down", fun _ _ => .error "down"⟩
      "Hello" "openai:gpt-4o" = "New Conversation" :=
  ((generateConversationTitle_never_fails ⟨true, false, true⟩
      ⟨fun _ _ => .error "down", fun _ _ => .error "down", fun _ _ => .error "down"⟩
      "Hello" "openai:gpt-4o").2 "down" rfl).1 rfl

/-- C10: for every selector whose parsed provider is neither `openai` nor
`google` (for example `mistral:mistral-large-2`), the title generation's
primary attempt falls through to the OpenAI provider with the fixed model
`gpt-3.5-turbo` and the default system-plus-user request, ignoring the
selector's provider and model; moreover, for every selector whatsoever,
`generateConversationTitle` never consults the Mistral provider — its
result is unchanged under any replacement of the Mistral oracle. -/
theorem titleGeneration_unknown_provider_openai (env : Env) (api : Api)
    (firstUserMessage : String) (model : String)
    (h1 : (parseModelSelector model).1 ≠ "openai")
    (h2 : (parseModelSelector model).1 ≠ "google") :
    titleTryBody api firstUserMessage model =
      generateOpenAIChatCompletion api
        [{ role := Role.system, content := titlePrompt },
         { role := Role.user, content := firstUserMessage }] "gpt-3.5-turbo" ∧
    (∀ model' mistralOracle,
      generateConversationTitle env { api with mistral := mistralOracle }
          firstUserMessage model' =
        generateConversationTitle env api firstUserMessage model') := by
  constructor
  · unfold titleTryBody
    rw [if_neg, if_neg]
    · simp [h2]
    · simp [h1]
  · intro model' mistralOracle
    rfl

/-- Witness for C10: the selector `mistral:mistral-large-2` routes the
primary title attempt to OpenAI at `gpt-3.5-turbo`. -/
theorem titleGeneration_unknown_provider_openai_witness :
    titleTryBody
        ⟨fun m _ => .ok m, fun _ _ => .error "m", fun _ _ => .error "g"⟩
        "Hello" "mistral:mistral-large-2" =
      generateOpenAIChatCompletion
        ⟨fun m _ => .ok m, fun _ _ => .error "m", fun _ _ => .error "g"⟩
        [{ role := Role.system, content := titlePrompt },
         { role := Role.user, content := "Hello" }] "gpt-3.5-turbo" :=
  (titleGeneration_unknown_provider_openai ⟨true, true, true⟩
      ⟨fun m _ => .ok m, fun _ _ => .error "m", fun _ _ => .error "g"⟩
      "Hello" "mistral:mistral-large-2" (by decide) (by decide)).1

/-- A catch-block step of the dispatcher: guarding an attempt with a
credential-and-provider condition and swallowing its failure is the same
as one step of the spec-side cascade walk. -/
theorem cascadeStep (c : Bool) (x rest : Except String String) :
    (match (if c then (match x with | .ok r => some r | .error _ => none) else none) with
      | some r => Except.ok r
      | none => rest) =
    (if c then (match x with | .ok r => Except.ok r | .error _ => rest) else rest) := by
  cases c <;> cases x <;> rfl

/-- Every error produced by the spec-side cascade walk is the terminal
`completionUnavailable` error for the original error message. -/
theorem fallbackCascade_error_eq (env : Env) (api : Api) (messages : List AIMessage)
    (origProvider origErr : String) :
    ∀ l e', fallbackCascade env api messages origProvider origErr l = .error e' →
      e' = completionUnavailable origErr := by
  intro l
  induction l with
  | nil =>
    intro e' h
    unfold fallbackCascade at h
    injection h with h2
    exact h2.symm
  | cons p ps ih =>
    intro e' h
    unfold fallbackCascade at h
    split at h
    · split at h
      · exact absurd h (by simp)
      · exact ih e' h
    · exact ih e' h

/-- C1: for every environment, oracle, history and model selector
(unknown and colon-free selectors included), `generateChatCompletion`
returns the routed primary attempt's success, and otherwise walks exactly
the spec's fallback cascade — `mistral`, then `openai`, then `google`,
each attempted only when its credential is configured and it was not the
original provider, each with its fixed fallback model identifier, each
failure swallowed — failing, when everything fails, with the single
dispatcher error carrying the original error's message; consequently
every error it ever produces is that dispatcher error and no other
error shape ever escapes. -/
theorem generateChatCompletion_follows_spec_cascade (env : Env) (api : Api)
    (messages : List AIMessage) (model : String) :
    (generateChatCompletion env api messages model =
      match routedPrimary api messages model with
      | .ok r => .ok r
      | .error e =>
        fallbackCascade env api messages (parseModelSelector model).1 e fallbackOrder) ∧
    (∀ e', generateChatCompletion env api messages model = .error e' →
      ∃ m, e' = "Failed to generate AI response: " ++ m) := by
  have hA : generateChatCompletion env api messages model =
      match routedPrimary api messages model with
      | .ok r => .ok r
      | .error e =>
        fallbackCascade env api messages (parseModelSelector model).1 e fallbackOrder := by
    unfold generateChatCompletion
    cases hp : routedPrimary api messages model with
    | ok r => rfl
    | error e =>
      dsimp only
      simp only [fallbackOrder, fallbackCascade, credentialConfigured, providerName,
        attemptProvider, fallbackModelId, completionUnavailable]
      rw [cascadeStep, cascadeStep, cascadeStep]
  refine ⟨hA, ?_⟩
  intro e' h
  rw [hA] at h
  cases hp : routedPrimary api messages model with
  | ok r =>
    rw [hp] at h
    exact absurd h (by simp)
  | error e =>
    rw [hp] at h
    dsimp only at h
    have hcu := fallbackCascade_error_eq env api messages
      (parseModelSelector model).1 e fallbackOrder e' h
    unfold completionUnavailable at hcu
    exact ⟨_, hcu⟩

/-- Witness for C1: with no credentials configured and a failing primary
provider, the dispatcher fails with the single categorized error carrying
the original error's message. -/
theorem generateChatCompletion_follows_spec_cascade_witness :
    ∃ m, ("Failed to generate AI response: boom" : String) =
      "Failed to generate AI response: " ++ m :=
  (generateChatCompletion_follows_spec_cascade ⟨false, false, false⟩
      ⟨fun _ _ => .error "boom", fun _ _ => .error "x", fun _ _ => .error "y"⟩
      [{ role := Role.user, content := "hi" }] "gpt-4o").2
    "Failed to generate AI response: boom" rfl

/-- Appending on the right preserves nonemptiness of a string. -/
theorem strAppend_ne_empty (s t : String) (h : s ≠ "") : s ++ t ≠ "" := by
  intro hc
  apply h
  have hd := congrArg String.data hc
  rw [String.data_append] at hd
  rcases List.append_eq_nil.mp hd with ⟨h1, _⟩
  exact String.ext h1

/-- Once the Google loop has pushed at least one message, the fold
condition can never fire again, so the remaining messages are simply the
non-system ones converted by `geminiOf`, appended to the accumulator. -/
theorem googleLoop_fst_acc_ne (msgs : List AIMessage) :
    ∀ acc sp, acc ≠ [] →
      (googleLoop msgs acc sp).1 =
        acc ++ (msgs.filter (fun m => !(m.role == Role.system))).map geminiOf := by
  induction msgs with
  | nil => intro acc sp h; simp [googleLoop]
  | cons m rest ih =>
    intro acc sp h
    unfold googleLoop
    by_cases hm : (m.role == Role.system) = true
    · rw [if_pos hm, ih acc _ h]
      simp [List.filter_cons, hm]
    · rw [if_neg hm]
      have hb : (m.role == Role.system) = false := by
        revert hm; cases m.role == Role.system <;> simp
      have hlen : (acc.length == 0) = false := by
        simp [h]
      dsimp only
      rw [hlen]
      simp only [Bool.and_false, Bool.false_eq_true, if_false]
      rw [ih (acc ++ [_]) sp (by simp)]
      simp [List.filter_cons, hb, geminiOf]

/-- The role labels the Google loop emits: one per non-system input
message, `model` for assistant and `user` otherwise, regardless of the
accumulator and pending system prompt. -/
theorem googleLoop_roles (msgs : List AIMessage) :
    ∀ acc sp, ((googleLoop msgs acc sp).1).map (fun g => g.role) =
      acc.map (fun g => g.role) ++
        (msgs.filter (fun m => !(m.role == Role.system))).map
          (fun m => if m.role == Role.assistant then "model" else "user") := by
  induction msgs with
  | nil => intro acc sp; simp [googleLoop]
  | cons m rest ih =>
    intro acc sp
    unfold googleLoop
    by_cases hm : (m.role == Role.system) = true
    · rw [if_pos hm, ih acc _]
      simp [List.filter_cons, hm]
    · rw [if_neg hm]
      have hb : (m.role == Role.system) = false := by
        revert hm; cases m.role == Role.system <;> simp
      dsimp only
      by_cases hc : ((if m.role == Role.assistant then "model" else "user") == "user" &&
          sp != "" && acc.length == 0) = true
      · rw [if_pos hc, ih _ _]
        simp [List.filter_cons, hb]
      · rw [if_neg hc, ih _ _]
        simp [List.filter_cons, hb]

/-- A leading run of system messages is entirely absorbed into the pending
system prompt, each content followed by a blank line. -/
theorem googleLoop_system_run (pre : List AIMessage)
    (hpre : ∀ m ∈ pre, m.role = Role.system) :
    ∀ msgs acc sp, googleLoop (pre ++ msgs) acc sp =
      googleLoop msgs acc (sp ++ joinedSystemContents pre) := by
  induction pre with
  | nil =>
    intro msgs acc sp
    have : sp ++ joinedSystemContents [] = sp := by
      show sp ++ "" = sp
      exact String.append_empty sp
    rw [List.nil_append, this]
  | cons m pre ih =>
    intro msgs acc sp
    have hm : m.role = Role.system := hpre m (by simp)
    have hmb : (m.role == Role.system) = true := by rw [hm]; rfl
    have step : googleLoop (m :: (pre ++ msgs)) acc sp =
        googleLoop (pre ++ msgs) acc (sp ++ m.content ++ "\n\n") := by
      conv_lhs => unfold googleLoop
      rw [if_pos hmb]
    rw [List.cons_append, step,
      ih (fun x hx => hpre x (by simp [hx])) msgs acc (sp ++ m.content ++ "\n\n")]
    congr 1
    simp [joinedSystemContents, String.append_assoc]

/-- If the Google loop pushed nothing, the pending system prompt stayed
nonempty (it only ever grows while nothing is pushed). -/
theorem googleLoop_fst_nil_snd (msgs : List AIMessage) :
    ∀ sp, sp ≠ "" → (googleLoop msgs [] sp).1 = [] → (googleLoop msgs [] sp).2 ≠ "" := by
  induction msgs with
  | nil => intro sp hsp _; exact hsp
  | cons m rest ih =>
    intro sp hsp hfst
    unfold googleLoop at hfst ⊢
    by_cases hm : (m.role == Role.system) = true
    · rw [if_pos hm] at hfst ⊢
      exact ih _ (strAppend_ne_empty _ _ (strAppend_ne_empty _ _ hsp)) hfst
    · exfalso
      rw [if_neg hm] at hfst
      dsimp only at hfst
      by_cases hc : ((if m.role == Role.assistant then "model" else "user") == "user" &&
          sp != "" && ([] : List GeminiMessage).length == 0) = true
      · rw [if_pos hc] at hfst
        rw [googleLoop_fst_acc_ne rest _ _ (by simp)] at hfst
        simp at hfst
      · rw [if_neg hc] at hfst
        rw [googleLoop_fst_acc_ne rest _ _ (by simp)] at hfst
        simp at hfst

/-- C3 counterexample: for the history assistant `a` then user `b`, the
first pushed message is the assistant one, so the fold condition (which
requires the accumulator to be empty) never fires for the later user
message: the outgoing request is exactly `model a`, `user b`, and no
outgoing text carries the quick-questions instruction — contradicting the
claim that the instruction is folded into the first user-role message of
the request. -/
theorem googleMessagesOf_no_fold_counterexample :
    googleMessagesOf
        [{ role := Role.assistant, content := "a" }, { role := Role.user, content := "b" }] =
      [{ role := "model", text := "a" }, { role := "user", text := "b" }] ∧
    ((googleMessagesOf
        [{ role := Role.assistant, content := "a" }, { role := Role.user, content := "b" }]).all
      (fun g => g.text == "a" || g.text == "b")) = true := by
  refine ⟨by decide, by decide⟩

/-- C3 amended: the outgoing Google request never contains a system role —
its role labels are exactly one `model` per assistant message and one
`user` per other non-system message, or a single `user` entry when the
history has no non-system message — and when every message before the
first user message is a system message, the quick-questions instruction
together with those system contents is folded into that first user
message's text.  (Per the counterexample, when an assistant message
precedes the first user message the instruction is instead dropped.) -/
theorem googleMessagesOf_shape :
    (∀ messages, (googleMessagesOf messages).map (fun g => g.role) =
      (let l := (messages.filter (fun m => !(m.role == Role.system))).map
          (fun m => if m.role == Role.assistant then "model" else "user");
       if l.isEmpty then ["user"] else l)) ∧
    (∀ (pre : List AIMessage) (u : AIMessage) (rest : List AIMessage),
      (∀ m ∈ pre, m.role = Role.system) → u.role = Role.user →
      googleMessagesOf (pre ++ u :: rest) =
        { role := "user",
          text := quickQuestionsInstructions ++ "\n\n" ++
            joinedSystemContents pre ++ u.content } ::
        (rest.filter (fun m => !(m.role == Role.system))).map geminiOf) := by
  have hqq : (quickQuestionsInstructions ++ "\n\n") ≠ "" :=
    strAppend_ne_empty _ _ (by decide)
  constructor
  · intro messages
    have hroles := googleLoop_roles messages [] (quickQuestionsInstructions ++ "\n\n")
    rw [List.map_nil, List.nil_append] at hroles
    unfold googleMessagesOf
    dsimp only
    by_cases hnil : (googleLoop messages [] (quickQuestionsInstructions ++ "\n\n")).1 = []
    · have hflt : ((messages.filter (fun m => !(m.role == Role.system))).map
          (fun m => if m.role == Role.assistant then "model" else "user")) = [] := by
        rw [← hroles, hnil]
        rfl
      have hsnd := googleLoop_fst_nil_snd messages (quickQuestionsInstructions ++ "\n\n") hqq hnil
      rw [hnil, bne_iff_ne.mpr hsnd, hflt]
      rfl
    · have hlen : ((googleLoop messages []
          (quickQuestionsInstructions ++ "\n\n")).1.length == 0) = false := by
        simp [hnil]
      rw [hlen]
      simp only [Bool.false_and, Bool.false_eq_true, if_false]
      rw [hroles]
      have hflt : ((messages.filter (fun m => !(m.role == Role.system))).map
          (fun m => if m.role == Role.assistant then "model" else "user")).isEmpty = false := by
        rw [← hroles]
        simp [hnil]
      simp [hflt]
  · intro pre u rest hpre hu
    obtain ⟨r, c⟩ := u
    dsimp only at hu
    subst hu
    have hsp : (quickQuestionsInstructions ++ "\n\n" ++ joinedSystemContents pre) ≠ "" :=
      strAppend_ne_empty _ _ hqq
    have step : googleLoop (⟨Role.user, c⟩ :: rest) []
        (quickQuestionsInstructions ++ "\n\n" ++ joinedSystemContents pre) =
        googleLoop rest
          [{ role := "user",
             text := quickQuestionsInstructions ++ "\n\n" ++ joinedSystemContents pre ++ c }]
          "" := by
      conv_lhs => unfold googleLoop
      rw [bne_iff_ne.mpr hsp]
      rfl
    have h1 : (googleLoop (pre ++ ⟨Role.user, c⟩ :: rest) []
        (quickQuestionsInstructions ++ "\n\n")).1 =
        { role := "user",
          text := quickQuestionsInstructions ++ "\n\n" ++ joinedSystemContents pre ++ c } ::
        (rest.filter (fun m => !(m.role == Role.system))).map geminiOf := by
      rw [googleLoop_system_run pre hpre (⟨Role.user, c⟩ :: rest) []
          (quickQuestionsInstructions ++ "\n\n"), step,
        googleLoop_fst_acc_ne rest _ "" (by simp)]
      rfl
    have h2 : ((googleLoop (pre ++ ⟨Role.user, c⟩ :: rest) []
        (quickQuestionsInstructions ++ "\n\n")).1.length == 0) = false := by
      rw [h1]
      rfl
    unfold googleMessagesOf
    dsimp only
    rw [h2]
    simp only [Bool.false_and, Bool.false_eq_true, if_false]
    exact h1

/-- Witness for C3 amended: a system message followed by a user message
folds the instruction and the system content into the lone outgoing user
message. -/
theorem googleMessagesOf_shape_witness :
    googleMessagesOf
        [{ role := Role.system, content := "Be brief." },
         { role := Role.user, content := "hello" }] =
      [{ role := "user",
         text := quickQuestionsInstructions ++ "\n\n" ++
           joinedSystemContents [{ role := Role.system, content := "Be brief." }] ++
           "hello" }] :=
  googleMessagesOf_shape.2 [{ role := Role.system, content := "Be brief." }]
    { role := Role.user, content := "hello" } []
    (by intro m hm; rw [List.mem_singleton] at hm; subst hm; rfl) rfl
